import Mathlib

/-!
Verification of the Emergency Hub screen (src/app/(tabs)/sos.tsx).

The development shallowly embeds the logic of the screen:
the priority-contact operations (addContact, removeContact), the
device-contact filter (filteredContacts), and the press-and-hold SOS
trigger (handlePressIn / handlePressOut / triggerSOS together with the
reanimated timing subsystem) as a deterministic timed event machine.
Purely cosmetic values of the screen (buttonScale, pulse rings, haptic
calls, colors) are not modelled: no property refers to them.
-/

namespace SosDost

/-- EmergencyContact record, from the interface at the top of sos.tsx. -/
structure EmergencyContact where
  id : String
  name : String
  phone : String
  icon : String
  relation : String
deriving DecidableEq, Repr

/-- DEFAULT_CONTACTS, from sos.tsx. -/
def DEFAULT_CONTACTS : List EmergencyContact :=
  [ { id := "police", name := "Police Control", phone := "100",
      icon := "shield.fill", relation := "Official" },
    { id := "ambulance", name := "Ambulance", phone := "102",
      icon := "cross.circle.fill", relation := "Medical" } ]

/-- One entry of the phoneNumbers array of an expo-contacts contact.
Only the number field is read by the screen; the number is optional in
the expo-contacts type. -/
structure PhoneNumber where
  number : Option String
deriving DecidableEq, Repr

/-- Device contact, as read by the screen from expo-contacts: the id and
the phoneNumbers array are both optional in the expo-contacts type, the
name is a plain string. Fields the screen never reads are not modelled. -/
structure Contact where
  id : Option String
  name : String
  phoneNumbers : Option (List PhoneNumber)
deriving DecidableEq, Repr

/-- JavaScript optional chaining contact.phoneNumbers?.[0]?.number:
none when the array is absent, empty, or its first entry has no number. -/
def firstPhoneNumber (c : Contact) : Option String :=
  (c.phoneNumbers.bind List.head?).bind PhoneNumber.number

/-- JavaScript expression v || fallback on an optional string: the empty
string and undefined are both falsy. -/
def jsOrElse (v : Option String) (fallback : String) : String :=
  match v with
  | some s => if s = "" then fallback else s
  | none => fallback

/-- User-visible Alert notices raised by the contact operations. -/
inductive Notice where
  | errorNoPhone
  | infoDuplicate
  | actionRestricted
deriving DecidableEq, Repr

/-- New EmergencyContact record built by addContact once a phone number
has been extracted. The freshId argument stands for the value of
Math.random().toString(), used when the device contact carries no id. -/
def newEmergencyContact (freshId : String) (c : Contact) (phoneNumber : String) :
    EmergencyContact :=
  { id := jsOrElse c.id freshId
    name := c.name
    phone := phoneNumber
    icon := "person.fill"
    relation := "Added Contact" }

/-- addContact from sos.tsx: extract phoneNumbers?.[0]?.number; a falsy
value (undefined or the empty string) is rejected with an error Alert;
a phone number already present in the priority list is rejected with an
info Alert; otherwise the new record is appended. The returned pair is
the updated priority list and the Alert notice, if any. -/
def addContact (freshId : String) (contact : Contact)
    (priorityContacts : List EmergencyContact) :
    List EmergencyContact × Option Notice :=
  match firstPhoneNumber contact with
  | none => (priorityContacts, some Notice.errorNoPhone)
  | some phoneNumber =>
    if phoneNumber = "" then
      (priorityContacts, some Notice.errorNoPhone)
    else if (priorityContacts.find? (fun c => c.phone == phoneNumber)).isSome then
      (priorityContacts, some Notice.infoDuplicate)
    else
      (priorityContacts ++ [newEmergencyContact freshId contact phoneNumber], none)

/-- removeContact from sos.tsx: the ids police and ambulance are
rejected with an Alert; any other id is removed by filtering the list. -/
def removeContact (id : String) (priorityContacts : List EmergencyContact) :
    List EmergencyContact × Option Notice :=
  if id = "police" ∨ id = "ambulance" then
    (priorityContacts, some Notice.actionRestricted)
  else
    (priorityContacts.filter (fun c => c.id != id), none)

/-- JavaScript s.toLowerCase(), as the character list of the result:
character-wise lower casing (the names and queries of this screen are
plain text, on which toLowerCase acts character by character). -/
def jsToLower (s : String) : List Char :=
  s.toList.map Char.toLower

/-- JavaScript s.includes(sub) on character lists: sub occurs
contiguously inside s. -/
def jsIncludes (s sub : List Char) : Bool :=
  decide (sub <:+: s)

/-- filteredContacts from sos.tsx: keep the device contacts whose
lowercased name contains the lowercased query. -/
def filteredContacts (deviceContacts : List Contact) (searchQuery : String) :
    List Contact :=
  deviceContacts.filter (fun c => jsIncludes (jsToLower c.name) (jsToLower searchQuery))

/-- One user action on the priority list: selecting a device contact in
the picker, or long-pressing a card to remove an id. -/
inductive ContactOp where
  | add (freshId : String) (c : Contact)
  | remove (id : String)
deriving DecidableEq, Repr

/-- State reached by one contact operation, dropping the notice. -/
def applyOp (l : List EmergencyContact) (op : ContactOp) : List EmergencyContact :=
  match op with
  | ContactOp.add freshId c => (addContact freshId c l).1
  | ContactOp.remove id => (removeContact id l).1

/-- State of the priority list after a sequence of user operations. -/
def runOps (l : List EmergencyContact) (ops : List ContactOp) : List EmergencyContact :=
  ops.foldl applyOp l

/-- C4: removing the id police or the id ambulance is rejected with the
Action Restricted notice and returns the list itself, hence the same
length and the same elements. -/
theorem removeContact_protected (l : List EmergencyContact) :
    removeContact "police" l = (l, some Notice.actionRestricted) ∧
    removeContact "ambulance" l = (l, some Notice.actionRestricted) := by
  constructor <;> simp [removeContact]

/-- Phone number addContact works with: the number of the first entry of
the phoneNumbers array, provided it is truthy (present and non-empty).
This is the value the source binds to phoneNumber and guards with an
early return when falsy. -/
def selectedPhone (c : Contact) : Option String :=
  match firstPhoneNumber c with
  | none => none
  | some p => if p = "" then none else some p

/-- C3: addContact appends the new record exactly when the contact
carries a (truthy first) phone number that does not already occur in the
priority list; a contact without such a number is rejected with the
error notice and a duplicate number with the info notice, the list
unchanged in both cases. -/
theorem addContact_spec (freshId : String) (c : Contact) (l : List EmergencyContact) :
    (selectedPhone c = none →
      addContact freshId c l = (l, some Notice.errorNoPhone)) ∧
    (∀ p, selectedPhone c = some p → (∃ e ∈ l, e.phone = p) →
      addContact freshId c l = (l, some Notice.infoDuplicate)) ∧
    (∀ p, selectedPhone c = some p → (∀ e ∈ l, e.phone ≠ p) →
      addContact freshId c l = (l ++ [newEmergencyContact freshId c p], none)) := by
  refine ⟨?_, ?_, ?_⟩
  · intro h
    unfold addContact
    cases hf : firstPhoneNumber c with
    | none => rfl
    | some p0 =>
      simp only [selectedPhone, hf] at h
      by_cases h0 : p0 = ""
      · simp [h0]
      · simp [h0] at h
  · intro p hp hex
    unfold addContact
    cases hf : firstPhoneNumber c with
    | none => simp [selectedPhone, hf] at hp
    | some p0 =>
      simp only [selectedPhone, hf] at hp
      by_cases h0 : p0 = ""
      · simp [h0] at hp
      · simp only [h0, if_false, Option.some.injEq] at hp
        subst hp
        have hfind : (l.find? (fun e => e.phone == p0)).isSome := by
          rw [List.find?_isSome]
          obtain ⟨e, he, hpe⟩ := hex
          exact ⟨e, he, by simp [hpe]⟩
        simp [h0, hfind]
  · intro p hp hall
    unfold addContact
    cases hf : firstPhoneNumber c with
    | none => simp [selectedPhone, hf] at hp
    | some p0 =>
      simp only [selectedPhone, hf] at hp
      by_cases h0 : p0 = ""
      · simp [h0] at hp
      · simp only [h0, if_false, Option.some.injEq] at hp
        subst hp
        have hfind : (l.find? (fun e => e.phone == p0)) = none := by
          rw [List.find?_eq_none]
          intro e he
          simpa using hall e he
        simp [h0, hfind]

/-- Device contact used as concrete input in witnesses: the Mom contact
of the scenario in the specification. -/
def momContact : Contact :=
  { id := some "mom", name := "Mom", phoneNumbers := some [{ number := some "+1555" }] }

/-- Device contact sharing the phone number of momContact. -/
def dupPhoneContact : Contact :=
  { id := some "dup", name := "Dup", phoneNumbers := some [{ number := some "+1555" }] }

/-- Witness for C3: adding Mom with the fresh phone number +1555 to the
default list appends the new record, and adding a second contact with
the same number is rejected with the info notice. -/
theorem addContact_spec_witness :
    addContact "f1" momContact DEFAULT_CONTACTS =
      (DEFAULT_CONTACTS ++ [newEmergencyContact "f1" momContact "+1555"], none) ∧
    addContact "f2" dupPhoneContact
      (DEFAULT_CONTACTS ++ [newEmergencyContact "f1" momContact "+1555"]) =
      (DEFAULT_CONTACTS ++ [newEmergencyContact "f1" momContact "+1555"],
        some Notice.infoDuplicate) := by
  constructor
  · exact (addContact_spec "f1" momContact DEFAULT_CONTACTS).2.2 "+1555"
      (by decide) (by decide)
  · exact (addContact_spec "f2" dupPhoneContact _).2.1 "+1555" (by decide)
      ⟨newEmergencyContact "f1" momContact "+1555", by decide, by decide⟩

/-- C10: removing a non-protected id that occurs nowhere in the list is
a silent no-op: the filter removes nothing and no Alert notice is
raised, unlike the protected-id rejection. -/
theorem removeContact_absent (id : String) (l : List EmergencyContact)
    (hp : id ≠ "police") (ha : id ≠ "ambulance")
    (habs : ∀ c ∈ l, c.id ≠ id) :
    removeContact id l = (l, none) := by
  unfold removeContact
  rw [if_neg (by tauto)]
  have : l.filter (fun c => c.id != id) = l :=
    List.filter_eq_self.mpr (fun c hc => by simpa using habs c hc)
  rw [this]

/-- Witness for C10: removing the id mom from the default list leaves it
unchanged and raises no notice. -/
theorem removeContact_absent_witness :
    removeContact "mom" DEFAULT_CONTACTS = (DEFAULT_CONTACTS, none) :=
  removeContact_absent "mom" DEFAULT_CONTACTS (by decide) (by decide) (by decide)

/-- Priority record with id mom and phone +1, used in counterexamples. -/
def dupA : EmergencyContact :=
  { id := "mom", name := "Mom A", phone := "+1",
    icon := "person.fill", relation := "Added Contact" }

/-- Second priority record with the same id mom but phone +2. -/
def dupB : EmergencyContact :=
  { id := "mom", name := "Mom B", phone := "+2",
    icon := "person.fill", relation := "Added Contact" }

/-- Counterexample to C5 as stated: on a list holding two records with
the id mom, removing the non-default id mom is present in the list, yet
the filter drops both occurrences, so the length falls by two, not one. -/
theorem removeContact_length_cex :
    ("mom" ≠ "police" ∧ "mom" ≠ "ambulance" ∧
      (DEFAULT_CONTACTS ++ [dupA, dupB]).any (fun c => c.id == "mom") = true) ∧
    ¬ ((removeContact "mom" (DEFAULT_CONTACTS ++ [dupA, dupB])).1.length + 1 =
        (DEFAULT_CONTACTS ++ [dupA, dupB]).length) := by decide

/-- Length of the list after filtering out one id, counted against the
number of occurrences of that id. -/
theorem length_filter_bne (id : String) (l : List EmergencyContact) :
    (l.filter (fun c => c.id != id)).length + l.countP (fun c => c.id == id) = l.length := by
  induction l with
  | nil => rfl
  | cons c t ih =>
    by_cases h : c.id = id
    · simp [List.filter_cons, List.countP_cons, h]
      omega
    · have hbne : (c.id != id) = true := by simpa using h
      have hbeq : (c.id == id) = false := by simpa using h
      simp [List.filter_cons, List.countP_cons, hbne, hbeq]
      omega

/-- C5 amended: removing a non-default id whose number of occurrences in
the list is exactly one yields a list exactly one shorter, with no
record of that id left. In general removeContact drops every record
with the given id, so the length falls by the occurrence count. -/
theorem removeContact_present_once (id : String) (l : List EmergencyContact)
    (hp : id ≠ "police") (ha : id ≠ "ambulance")
    (hcount : l.countP (fun c => c.id == id) = 1) :
    (removeContact id l).1.length + 1 = l.length ∧
    ∀ c ∈ (removeContact id l).1, c.id ≠ id := by
  unfold removeContact
  rw [if_neg (by tauto)]
  refine ⟨?_, ?_⟩
  · show (l.filter (fun c => c.id != id)).length + 1 = l.length
    have := length_filter_bne id l
    omega
  · intro c hc
    have hc2 : c ∈ l.filter (fun c => c.id != id) := hc
    have := List.of_mem_filter hc2
    simpa using this

/-- Witness for C5: on the default list extended with one mom record,
removing the id mom shrinks the list from three records to two. -/
theorem removeContact_present_once_witness :
    (removeContact "mom" (DEFAULT_CONTACTS ++ [dupA])).1.length + 1 =
      (DEFAULT_CONTACTS ++ [dupA]).length :=
  (removeContact_present_once "mom" (DEFAULT_CONTACTS ++ [dupA])
    (by decide) (by decide) (by decide)).1

/-- Characterization of the JavaScript includes test used by the filter. -/
theorem jsIncludes_iff (s sub : List Char) :
    jsIncludes s sub = true ↔ sub <:+: s := by
  simp [jsIncludes]

/-- C6: the contact filter is pure in the source set and the query; the
empty query keeps the whole set, a query that is a case-insensitive
substring of no name yields the empty set, and membership in the result
holds exactly for source contacts whose lowercased name contains the
lowercased query. -/
theorem filteredContacts_spec (l : List Contact) (q : String) :
    filteredContacts l "" = l ∧
    ((∀ c ∈ l, ¬ (jsToLower q <:+: jsToLower c.name)) →
      filteredContacts l q = []) ∧
    (∀ c, c ∈ filteredContacts l q ↔
      c ∈ l ∧ jsToLower q <:+: jsToLower c.name) := by
  refine ⟨?_, ?_, ?_⟩
  · apply List.filter_eq_self.mpr
    intro c _
    rw [jsIncludes_iff]
    have h0 : jsToLower "" = ([] : List Char) := by decide
    rw [h0]
    exact List.nil_infix
  · intro hnone
    apply List.filter_eq_nil_iff.mpr
    intro c hc
    rw [Bool.not_eq_true, ← Bool.not_eq_true, jsIncludes_iff]
    exact hnone c hc
  · intro c
    rw [filteredContacts, List.mem_filter, jsIncludes_iff]

/-- Witness for C6: filtering the singleton Mom set with the uppercase
query MOM keeps Mom (case-insensitive match), while filtering it with a
query matching no name yields the empty set. -/
theorem filteredContacts_spec_witness :
    filteredContacts [momContact] "zzz" = [] ∧
    filteredContacts [momContact] "MOM" = [momContact] ∧
    filteredContacts [momContact] "" = [momContact] := by
  refine ⟨?_, by decide, (filteredContacts_spec [momContact] "zzz").1⟩
  exact (filteredContacts_spec [momContact] "zzz").2.1 (by decide)

/-- Shape of the updated list produced by addContact: either unchanged,
or the old list with one new record appended whose phone number did not
occur before. -/
theorem addContact_fst_cases (freshId : String) (c : Contact) (l : List EmergencyContact) :
    (addContact freshId c l).1 = l ∨
    ∃ p, (∀ e ∈ l, e.phone ≠ p) ∧
      (addContact freshId c l).1 = l ++ [newEmergencyContact freshId c p] := by
  unfold addContact
  cases hf : firstPhoneNumber c with
  | none => exact Or.inl rfl
  | some p0 =>
    by_cases h0 : p0 = ""
    · simp [h0]
    · by_cases hfind : (l.find? (fun e => e.phone == p0)).isSome
      · simp [h0, hfind]
      · refine Or.inr ⟨p0, ?_, by simp [h0, hfind]⟩
        intro e he hep
        exact hfind (List.find?_isSome.mpr ⟨e, he, by simp [hep]⟩)

/-- Shape of the updated list produced by removeContact: unchanged for a
protected id, otherwise the list filtered on the id. -/
theorem removeContact_fst_cases (id : String) (l : List EmergencyContact) :
    (removeContact id l).1 = l ∨
    (id ≠ "police" ∧ id ≠ "ambulance" ∧
      (removeContact id l).1 = l.filter (fun c => c.id != id)) := by
  unfold removeContact
  by_cases hid : id = "police" ∨ id = "ambulance"
  · rw [if_pos hid]; exact Or.inl rfl
  · rw [if_neg hid]; exact Or.inr ⟨fun h => hid (Or.inl h), fun h => hid (Or.inr h), rfl⟩

/-- Preservation of a protected id by one user operation on the list. -/
theorem applyOp_keeps_protected_id (op : ContactOp) (l : List EmergencyContact)
    (i : String) (hi : i = "police" ∨ i = "ambulance")
    (h : l.any (fun c => c.id == i) = true) :
    (applyOp l op).any (fun c => c.id == i) = true := by
  cases op with
  | add freshId c =>
    show ((addContact freshId c l).1.any (fun c => c.id == i)) = true
    rcases addContact_fst_cases freshId c l with heq | ⟨p, _, heq⟩
    · rw [heq]; exact h
    · rw [heq, List.any_append, h, Bool.true_or]
  | remove id =>
    show ((removeContact id l).1.any (fun c => c.id == i)) = true
    rcases removeContact_fst_cases id l with heq | ⟨hp, ha, heq⟩
    · rw [heq]; exact h
    · rw [heq]
      rw [List.any_eq_true] at h ⊢
      obtain ⟨c, hc, hci⟩ := h
      have hcid : c.id = i := by simpa using hci
      refine ⟨c, List.mem_filter.mpr ⟨hc, ?_⟩, hci⟩
      rw [hcid]
      cases hi with
      | inl h1 => subst h1; simpa using Ne.symm hp
      | inr h1 => subst h1; simpa using Ne.symm ha

/-- C7: after any sequence of add and remove operations starting from
the default list, a record with the id police and a record with the id
ambulance are still present: no user action removes the built-ins. -/
theorem defaults_permanent (ops : List ContactOp) :
    (runOps DEFAULT_CONTACTS ops).any (fun c => c.id == "police") = true ∧
    (runOps DEFAULT_CONTACTS ops).any (fun c => c.id == "ambulance") = true := by
  have key : ∀ (i : String), i = "police" ∨ i = "ambulance" →
      ∀ (ops : List ContactOp) (l : List EmergencyContact),
      l.any (fun c => c.id == i) = true →
      (runOps l ops).any (fun c => c.id == i) = true := by
    intro i hi ops
    induction ops with
    | nil => intro l h; exact h
    | cons op t ih =>
      intro l h
      exact ih (applyOp l op) (applyOp_keeps_protected_id op l i hi h)
  exact ⟨key "police" (Or.inl rfl) ops DEFAULT_CONTACTS (by decide),
         key "ambulance" (Or.inr rfl) ops DEFAULT_CONTACTS (by decide)⟩

/-- Device contact with id mom and phone +1. -/
def deviceMomA : Contact :=
  { id := some "mom", name := "Mom A", phoneNumbers := some [{ number := some "+1" }] }

/-- Second device contact with the same id mom but phone +2. -/
def deviceMomB : Contact :=
  { id := some "mom", name := "Mom B", phoneNumbers := some [{ number := some "+2" }] }

/-- Counterexample to C9 as stated: addContact rejects duplicates by
phone number only, so selecting two device contacts that share the id
mom but differ in phone number leaves the reachable list with two
records of the same id. -/
theorem ids_pairwise_distinct_cex :
    ¬ ((runOps DEFAULT_CONTACTS
        [ContactOp.add "f1" deviceMomA, ContactOp.add "f2" deviceMomB]).map
          (fun c => c.id)).Nodup := by decide

/-- Preservation of pairwise-distinct phone numbers by one operation. -/
theorem applyOp_phones_nodup (op : ContactOp) (l : List EmergencyContact)
    (h : (l.map (fun c => c.phone)).Nodup) :
    ((applyOp l op).map (fun c => c.phone)).Nodup := by
  cases op with
  | add freshId c =>
    show ((addContact freshId c l).1.map (fun c => c.phone)).Nodup
    rcases addContact_fst_cases freshId c l with heq | ⟨p, hfresh, heq⟩
    · rw [heq]; exact h
    · rw [heq, List.map_append]
      refine List.nodup_append.mpr ⟨h, List.nodup_singleton _, ?_⟩
      intro x hx hx1
      obtain ⟨e, he, hep⟩ := List.mem_map.mp hx
      have hxp : x = p := by simpa using hx1
      exact hfresh e he (hep.trans hxp)
  | remove id =>
    show ((removeContact id l).1.map (fun c => c.phone)).Nodup
    rcases removeContact_fst_cases id l with heq | ⟨_, _, heq⟩
    · rw [heq]; exact h
    · rw [heq]
      exact h.sublist (List.Sublist.map _ (List.filter_sublist l))

/-- C9 amended: in every state reachable from the default list by add
and remove operations the phone numbers of the records are pairwise
distinct; the ids need not be (addContact deduplicates by phone number
only, see the counterexample). -/
theorem phones_pairwise_distinct (ops : List ContactOp) :
    ((runOps DEFAULT_CONTACTS ops).map (fun c => c.phone)).Nodup := by
  have key : ∀ (ops : List ContactOp) (l : List EmergencyContact),
      (l.map (fun c => c.phone)).Nodup →
      ((runOps l ops).map (fun c => c.phone)).Nodup := by
    intro ops
    induction ops with
    | nil => intro l h; exact h
    | cons op t ih =>
      intro l h
      exact ih (applyOp l op) (applyOp_phones_nodup op l h)
  exact key ops DEFAULT_CONTACTS (by decide)

/-!
Timed event machine for the press-and-hold SOS trigger.

The reanimated subsystem is modelled explicitly: a shared value carries
at most one running timing animation (start time, start value, target,
duration, optional completion callback). Starting a new animation on the
value, as cancelAnimation followed by withTiming does in handlePressOut,
discards the running one; its callback then only sees finished = false,
whose branch in the source is empty, so the discard is silent. Before a
user event at time t is handled, the runtime first brings the shared
value up to date: an animation whose deadline has passed completes,
takes the value to its target and runs its callback with finished =
true. The easing curve of a running animation is kept abstract as a
parameter of the semantics, since no property depends on the shape of
the curve, only on values at completion. The sosCount field counts the
invocations of triggerSOS and belongs to the observer, not the screen.
-/

/-- Completion callbacks attached to timing animations: the only one in
the source is the activation callback of handlePressIn. -/
inductive Callback where
  | activation
deriving DecidableEq, Repr

/-- One running withTiming animation on the progress shared value. -/
structure Anim where
  startTime : Nat
  startValue : ℚ
  target : ℚ
  duration : Nat
  callback : Option Callback
deriving DecidableEq, Repr

/-- Screen state relevant to the SOS trigger: the isActivating and
sosActive React states, visibility of the SOS ACTIVATED alert, the
progress shared value with its running animation, and the observer
count of triggerSOS invocations. -/
structure SOSState where
  isActivating : Bool
  sosActive : Bool
  alertVisible : Bool
  progress : ℚ
  anim : Option Anim
  sosCount : Nat
deriving DecidableEq, Repr

/-- State at screen mount. -/
def initialState : SOSState :=
  { isActivating := false, sosActive := false, alertVisible := false,
    progress := 0, anim := none, sosCount := 0 }

/-- triggerSOS from sos.tsx: set sosActive and show the SOS ACTIVATED
alert; the observer count is incremented. -/
def triggerSOS (s : SOSState) : SOSState :=
  { s with sosActive := true, alertVisible := true, sosCount := s.sosCount + 1 }

/-- Bring the progress shared value up to date at time now: a running
animation past its deadline completes at its target value and its
callback runs with finished = true; the activation callback is the body
of the handlePressIn completion (triggerSOS, progress reset to 0,
isActivating cleared). An animation still in flight moves the value
along its easing curve. -/
def advance (ease : ℚ → ℚ) (now : Nat) (s : SOSState) : SOSState :=
  match s.anim with
  | none => s
  | some a =>
    if a.startTime + a.duration ≤ now then
      let s1 := { s with progress := a.target, anim := none }
      match a.callback with
      | some Callback.activation =>
        let s2 := triggerSOS s1
        { s2 with progress := 0, isActivating := false }
      | none => s1
    else
      { s with progress :=
          a.startValue + (a.target - a.startValue) *
            ease ((((now - a.startTime : Nat) : ℚ)) / (a.duration : ℚ)) }

/-- handlePressIn from sos.tsx: set isActivating and start the 2000ms
timing animation of progress toward 1 with the activation callback. -/
def handlePressIn (now : Nat) (s : SOSState) : SOSState :=
  { s with isActivating := true,
           anim := some { startTime := now, startValue := s.progress, target := 1,
                          duration := 2000, callback := some Callback.activation } }

/-- handlePressOut from sos.tsx: unless sosActive, clear isActivating,
cancel the running animation (its callback sees finished = false and
does nothing) and start the 300ms decay of progress back to 0. -/
def handlePressOut (now : Nat) (s : SOSState) : SOSState :=
  if s.sosActive then s
  else
    { s with isActivating := false,
             anim := some { startTime := now, startValue := s.progress, target := 0,
                            duration := 300, callback := none } }

/-- Dismissal of the SOS ACTIVATED alert through its single button,
whose onPress clears sosActive. -/
def handleAck (s : SOSState) : SOSState :=
  if s.alertVisible then
    { s with sosActive := false, alertVisible := false }
  else s

/-- User events delivered to the screen. -/
inductive Action where
  | pressIn
  | pressOut
  | ack
deriving DecidableEq, Repr

/-- The disabled attribute of the SOS Pressable in the JSX is the
sosActive state. -/
def pressableDisabled (s : SOSState) : Bool :=
  s.sosActive

/-- Dispatch of one user event: a press start is dropped by the
Pressable when it is disabled. -/
def handle (now : Nat) (a : Action) (s : SOSState) : SOSState :=
  match a with
  | Action.pressIn => if pressableDisabled s then s else handlePressIn now s
  | Action.pressOut => handlePressOut now s
  | Action.ack => handleAck s

/-- One step of the machine: the runtime brings the shared value up to
date at the event time, then the event is handled. -/
def step (ease : ℚ → ℚ) (s : SOSState) (e : Nat × Action) : SOSState :=
  handle e.1 e.2 (advance ease e.1 s)

/-- State after a timed event trace. -/
def run (ease : ℚ → ℚ) (s : SOSState) (tr : List (Nat × Action)) : SOSState :=
  tr.foldl (step ease) s

/-- State reached by a press start on the idle screen: activating, with
the 2000ms activation animation running from time t0. -/
theorem step_pressIn_initial (ease : ℚ → ℚ) (t0 : Nat) :
    step ease initialState (t0, Action.pressIn) =
      { isActivating := true, sosActive := false, alertVisible := false,
        progress := 0,
        anim := some { startTime := t0, startValue := 0, target := 1,
                       duration := 2000, callback := some Callback.activation },
        sosCount := 0 } := by
  simp [step, advance, handle, pressableDisabled, handlePressIn, initialState]

/-- C1: a hold begun at t0 and released at t1 before the 2000ms timer
completes never fires triggerSOS (count stays 0) and leaves the
activating flag cleared; after the release the pending completion is
cancelled, so letting any amount of time pass still fires nothing; and
once the 300ms decay has elapsed the progress value is back at 0. -/
theorem sos_abort_spec (ease : ℚ → ℚ) (t0 t1 : Nat)
    (hle : t0 ≤ t1) (hlt : t1 < t0 + 2000) :
    (run ease initialState [(t0, Action.pressIn), (t1, Action.pressOut)]).sosCount = 0 ∧
    (run ease initialState [(t0, Action.pressIn), (t1, Action.pressOut)]).isActivating
      = false ∧
    (∀ t2, (advance ease t2
      (run ease initialState [(t0, Action.pressIn), (t1, Action.pressOut)])).sosCount
        = 0) ∧
    (∀ t2, t1 + 300 ≤ t2 → (advance ease t2
      (run ease initialState [(t0, Action.pressIn), (t1, Action.pressOut)])).progress
        = 0) := by
  have hc : ¬ (t0 + 2000 ≤ t1) := by omega
  obtain ⟨v, h2⟩ : ∃ v : ℚ,
      run ease initialState [(t0, Action.pressIn), (t1, Action.pressOut)] =
      { isActivating := false, sosActive := false, alertVisible := false,
        progress := v,
        anim := some { startTime := t1, startValue := v, target := 0,
                       duration := 300, callback := none },
        sosCount := 0 } := by
    refine ⟨0 + (1 - 0) * ease ((((t1 - t0 : Nat) : ℚ)) / ((2000 : Nat) : ℚ)), ?_⟩
    have hr : run ease initialState [(t0, Action.pressIn), (t1, Action.pressOut)] =
        step ease (step ease initialState (t0, Action.pressIn)) (t1, Action.pressOut) :=
      rfl
    rw [hr, step_pressIn_initial]
    simp [step, advance, handle, handlePressOut, hc]
  refine ⟨?_, ?_, ?_, ?_⟩
  · rw [h2]
  · rw [h2]
  · intro t2
    rw [h2]
    unfold advance
    by_cases hd : t1 + 300 ≤ t2
    · simp [hd]
    · simp [hd]
  · intro t2 ht2
    rw [h2]
    unfold advance
    simp [ht2]

/-- Witness for C1: press at 0, release at 1000, observe at 1300. -/
theorem sos_abort_spec_witness :
    (run (fun x => x) initialState
      [(0, Action.pressIn), (1000, Action.pressOut)]).sosCount = 0 ∧
    (advance (fun x => x) 1300 (run (fun x => x) initialState
      [(0, Action.pressIn), (1000, Action.pressOut)])).progress = 0 := by
  have h := sos_abort_spec (fun x => x) 0 1000 (by omega) (by omega)
  exact ⟨h.1, h.2.2.2 1300 (by omega)⟩

/-- State reached when the activation timer completes: Active, alert
shown, progress reset, no animation left, one triggerSOS invocation. -/
def activeState : SOSState :=
  { isActivating := false, sosActive := true, alertVisible := true,
    progress := 0, anim := none, sosCount := 1 }

/-- C2: a hold begun at t0 on the idle screen and kept until the timer
deadline fires triggerSOS exactly once (count exactly 1 in the reached
state), and the completed animation is gone, so any further passage of
time leaves the state fixed: the completion cannot fire a second time
within the phase. -/
theorem sos_complete_spec (ease : ℚ → ℚ) (t0 t : Nat) (h : t0 + 2000 ≤ t) :
    advance ease t (step ease initialState (t0, Action.pressIn)) = activeState ∧
    ∀ t2, advance ease t2 (advance ease t (step ease initialState (t0, Action.pressIn)))
      = advance ease t (step ease initialState (t0, Action.pressIn)) := by
  have h2 : advance ease t (step ease initialState (t0, Action.pressIn)) = activeState := by
    rw [step_pressIn_initial]
    unfold advance
    simp [h, triggerSOS, activeState]
  refine ⟨h2, fun t2 => ?_⟩
  rw [h2]
  rfl

/-- Witness for C2: press at 0, timer completes at 2000, check at 9999. -/
theorem sos_complete_spec_witness :
    advance (fun x => x) 2000 (step (fun x => x) initialState (0, Action.pressIn))
      = activeState ∧
    advance (fun x => x) 9999 (advance (fun x => x) 2000
      (step (fun x => x) initialState (0, Action.pressIn)))
      = advance (fun x => x) 2000 (step (fun x => x) initialState (0, Action.pressIn)) := by
  have h := sos_complete_spec (fun x => x) 0 2000 (by omega)
  exact ⟨h.1, h.2 9999⟩

/-- C8: in an Active state (sosActive set, alert shown, no animation
running, activating flag clear) the trigger Pressable is disabled, so a
press start or release changes nothing and no new Activating phase can
begin; time passing never clears sosActive (no automatic timeout); the
alert acknowledgment yields the Idle flags; and the acknowledgment is
the only event that clears sosActive. -/
theorem active_locked (ease : ℚ → ℚ) (s : SOSState)
    (hA : s.sosActive = true) (hAnim : s.anim = none)
    (hAct : s.isActivating = false) (hAl : s.alertVisible = true) :
    pressableDisabled s = true ∧
    (∀ t, step ease s (t, Action.pressIn) = s) ∧
    (∀ t, step ease s (t, Action.pressOut) = s) ∧
    (∀ t, (advance ease t s).sosActive = true) ∧
    (∀ t, (step ease s (t, Action.ack)).sosActive = false ∧
          (step ease s (t, Action.ack)).isActivating = false ∧
          (step ease s (t, Action.ack)).alertVisible = false) ∧
    (∀ t a, (step ease s (t, a)).sosActive = false → a = Action.ack) := by
  have hadv : ∀ t, advance ease t s = s := by
    intro t
    unfold advance
    rw [hAnim]
  have hIn : ∀ t, step ease s (t, Action.pressIn) = s := by
    intro t
    simp [step, hadv, handle, pressableDisabled, hA]
  have hOut : ∀ t, step ease s (t, Action.pressOut) = s := by
    intro t
    simp [step, hadv, handle, handlePressOut, hA]
  refine ⟨hA, hIn, hOut, ?_, ?_, ?_⟩
  · intro t
    rw [hadv t, hA]
  · intro t
    simp [step, hadv, handle, handleAck, hAl, hAct]
  · intro t a h
    cases a with
    | pressIn => rw [hIn t, hA] at h; exact Bool.noConfusion h
    | pressOut => rw [hOut t, hA] at h; exact Bool.noConfusion h
    | ack => rfl

/-- Witness for C8: in the concrete Active state a press start is
ignored and the acknowledgment deactivates. -/
theorem active_locked_witness :
    step (fun x => x) activeState (5, Action.pressIn) = activeState ∧
    (step (fun x => x) activeState (5, Action.ack)).sosActive = false := by
  have h := active_locked (fun x => x) activeState rfl rfl rfl rfl
  exact ⟨h.2.1 5, (h.2.2.2.2.1 5).1⟩

end SosDost
